import Mathlib

/-!
Shallow embedding of the Chronos Paradox causality and guardrail engine
(`backend/guardrails.py` and `backend/logic_engine.py`), together with
theorems settling the specification claims about it.

Python floats are modelled as exact rationals (`ℚ`); Python lists and
dicts as Lean lists (dicts in insertion order); `random.uniform` draws
are passed in as explicit `jitter` parameters constrained by the range
the source draws from.  Presentation-only data that no property touches
(timestamps, md5 action ids, the randomized per-era world-state deltas
and the echo/trace strings) is not modelled.
-/

namespace Chronos

/-- Case-insensitive lowering of a string, as `str.lower()` applied to the
ASCII texts the keyword lists use. -/
def lowerStr (s : String) : List Char :=
  s.data.map Char.toLower

/-- Python substring containment `needle in haystack` on character lists. -/
def strContains (haystack needle : List Char) : Bool :=
  needle.isPrefixOf haystack ||
    match haystack with
    | [] => false
    | _ :: t => strContains t needle

-- ─── Content Safety (guardrails.py) ───

def SENSITIVE_high_risk : List String :=
  ["genocide", "terrorism", "torture", "trafficking",
   "real-world assassination", "bioweapon", "nuclear launch"]

def SENSITIVE_medium_risk : List String :=
  ["enslave", "brainwash", "mass destruction",
   "plague", "weaponize", "overthrow government"]

def SENSITIVE_low_risk : List String :=
  ["fight", "battle", "war", "conflict", "rebel",
   "steal", "sabotage", "spy"]

structure Violation where
  keyword : String
  severity : String
deriving DecidableEq

structure SafetyCheck where
  is_safe : Bool
  risk_level : String
  violations : List Violation
  message : String
deriving DecidableEq

/-- `NarrativeSafetyFilter._get_message` (the `violations` argument is unused
in the source as well). -/
def get_message (risk_level : String) (_violations : List Violation) : String :=
  if risk_level = "blocked" then
    "⛔ This action is blocked by Responsible AI guardrails. The temporal engine cannot process commands that would generate harmful narrative content."
  else if risk_level = "warning" then
    "⚠ Caution: This action triggers moderate narrative sensitivity. The AI will adjust the output to remain within ethical bounds."
  else
    "✓ Content passes safety checks."

/-- `NarrativeSafetyFilter.check_content`.  The three keyword loops are
rendered as ordered `filter`/`map` passes; the medium loop runs only when the
high loop left `risk_level ≠ "blocked"`, the low loop only when it is still
`"safe"`, exactly as the guards in the source. -/
def check_content (text : String) : SafetyCheck :=
  let text_lower := lowerStr text
  let highV := (SENSITIVE_high_risk.filter fun k => strContains text_lower k.data).map
    fun k => Violation.mk k "high"
  let risk1 : String := if highV.isEmpty then "safe" else "blocked"
  let medV := if risk1 = "blocked" then [] else
    (SENSITIVE_medium_risk.filter fun k => strContains text_lower k.data).map
      fun k => Violation.mk k "medium"
  let risk2 : String := if medV.isEmpty then risk1 else "warning"
  let lowV := if risk2 = "safe" then
    (SENSITIVE_low_risk.filter fun k => strContains text_lower k.data).map
      fun k => Violation.mk k "low"
    else []
  let violations := highV ++ medV ++ lowV
  { is_safe := risk2 ≠ "blocked"
    risk_level := risk2
    violations := violations
    message := get_message risk2 violations }

-- ─── Paradox Limiter (guardrails.py) ───

def PARADOX_THRESHOLD : ℚ := 0.85
def WARNING_THRESHOLD : ℚ := 0.70
def COOLDOWN_RATE : ℚ := 0.05

structure LimiterState where
  paradox_accumulator : ℚ := 0
  gridlock_count : ℕ := 0
  actions_since_gridlock : ℕ := 0
deriving DecidableEq

def LimiterState.init : LimiterState := {}

/-- Python `round(q, 3)` (nearest thousandth; the tie-breaking convention is
immaterial to every property below). -/
def round3 (q : ℚ) : ℚ := (round (q * 1000) : ℚ) / 1000

structure ParadoxDecision where
  allowed : Bool
  status : String
  combined_risk : ℚ
  message : String
  suggestion : Option String
  gridlock_count : Option ℕ
deriving DecidableEq

/-- `ParadoxLimiter.check_paradox_risk`, as a function of the limiter state. -/
def check_paradox_risk (s : LimiterState) (proposed_risk butterfly_index : ℚ) :
    ParadoxDecision × LimiterState :=
  let combined_risk := proposed_risk * 0.6 + butterfly_index / 100 * 0.4
  let s := { s with
      paradox_accumulator := min 1 (s.paradox_accumulator + proposed_risk * 0.1) }
  if combined_risk ≥ PARADOX_THRESHOLD then
    let s := { s with gridlock_count := s.gridlock_count + 1, actions_since_gridlock := 0 }
    (⟨false, "gridlock", round3 combined_risk,
      "🔒 AGENTIC GRIDLOCK: Paradox risk exceeds safe threshold. The Temporal Logic Engine has halted this action to prevent causal collapse. Try a less destructive approach.",
      some "Consider observing the timeline or making a smaller change first.",
      some s.gridlock_count⟩, s)
  else if combined_risk ≥ WARNING_THRESHOLD then
    (⟨true, "warning", round3 combined_risk,
      "⚠ HIGH PARADOX RISK: Proceeding, but the timeline is under strain. Further high-risk actions may trigger gridlock.",
      some "Stabilize the timeline by making a protective action in a connected era.",
      none⟩, s)
  else
    let s := { s with actions_since_gridlock := s.actions_since_gridlock + 1,
                      paradox_accumulator := max 0 (s.paradox_accumulator - COOLDOWN_RATE) }
    (⟨true, "safe", round3 combined_risk,
      "✓ Paradox risk within acceptable limits.", none, none⟩, s)

-- ─── Temporal Ethics Board (guardrails.py) ───

inductive EvalAction where
  | blockedContent (details : SafetyCheck)
  | blockedParadox (details : ParadoxDecision)
  | ok (safety : SafetyCheck) (paradox : ParadoxDecision)
deriving DecidableEq

def EvalAction.approved : EvalAction → Bool
  | .ok _ _ => true
  | _ => false

def EvalAction.reason : EvalAction → Option String
  | .blockedContent _ => some "content_safety"
  | .blockedParadox _ => some "paradox_gridlock"
  | .ok _ _ => none

/-- `TemporalEthicsBoard.evaluate_action`: the safety filter is stateless, so
the board state is the limiter state. -/
def evaluate_action (s : LimiterState) (command : String)
    (paradox_risk butterfly_index : ℚ) : EvalAction × LimiterState :=
  let safety := check_content command
  if ¬ safety.is_safe then
    (.blockedContent safety, s)
  else
    let (paradox, s') := check_paradox_risk s paradox_risk butterfly_index
    if ¬ paradox.allowed then
      (.blockedParadox paradox, s')
    else
      (.ok safety paradox, s')

-- ─── Temporal Logic Engine: data model (logic_engine.py) ───

/-- `TemporalAnchor` (the wall-clock `created_at` timestamp is not modelled). -/
structure TemporalAnchor where
  id : String
  year : ℤ
  era : String
  label : String
  description : String
  status : String := "stable"
deriving DecidableEq

structure CausalLink where
  source_id : String
  target_id : String
  effect_type : String
  magnitude : ℚ
  description : String := ""
deriving DecidableEq

/-- `TimelineBranch` (the opaque `world_state` payload, an always-empty dict in
the seed, is not modelled). -/
structure TimelineBranch where
  id : String
  name : String
  divergence_point : String
  probability : ℚ
  is_primary : Bool := false
deriving DecidableEq

/-- The mutable state of a `TemporalLogicEngine` instance.  The anchor dict is
kept in insertion order; history entries keep the command and era (the md5
action id and timestamp are not modelled). -/
structure EngineState where
  anchors : List TemporalAnchor
  causal_links : List CausalLink
  branches : List TimelineBranch
  butterfly_index : ℚ
  action_history : List (String × String)
deriving DecidableEq

/-- The canonical seed anchors of `_seed_timeline`. -/
def default_anchors : List TemporalAnchor :=
  [⟨"n1", 800, "Dark Ages", "The Awakening", "Ancient temporal rift first detected by monks", "stable"⟩,
   ⟨"n2", 1200, "Medieval", "Castle Siege", "War over the first temporal artifact", "stable"⟩,
   ⟨"n3", 1400, "Renaissance", "Leonardo\x27s Workshop", "Da Vinci discovers the Chronos blueprints", "shifting"⟩,
   ⟨"n4", 1750, "Enlightenment", "The Invention", "First temporal compass assembled", "stable"⟩,
   ⟨"n5", 1900, "Industrial", "The Machine", "Industrial-scale temporal experiments begin", "stable"⟩,
   ⟨"n6", 2024, "Digital", "The Singularity", "AI becomes aware of temporal rifts", "shifting"⟩,
   ⟨"n7", 2200, "Neo Age", "First Colony", "Humanity\x27s first temporal colony established", "stable"⟩,
   ⟨"n8", 2847, "Cyberpunk", "Neo-Kyoto", "The Chronos Paradox reaches critical mass", "paradox"⟩]

/-- The canonical seed causal links of `_seed_timeline`. -/
def default_links : List CausalLink :=
  [⟨"n1", "n2", "positive", 0.3, "Discovery leads to conflict"⟩,
   ⟨"n2", "n3", "positive", 0.5, "Artifacts inspire Renaissance minds"⟩,
   ⟨"n3", "n4", "positive", 0.7, "Blueprints enable the invention"⟩,
   ⟨"n3", "n5", "neutral", 0.2, "Alternate industrial path"⟩,
   ⟨"n4", "n5", "positive", 0.6, "Compass powers the machine"⟩,
   ⟨"n5", "n6", "positive", 0.8, "Machine data feeds digital age"⟩,
   ⟨"n6", "n7", "positive", 0.5, "AI enables colony planning"⟩,
   ⟨"n6", "n8", "negative", 0.4, "Digital overreach creates dystopia"⟩,
   ⟨"n7", "n8", "positive", 0.6, "Colony resources flow to Neo-Kyoto"⟩]

/-- The two seed branches of `_seed_timeline`. -/
def default_branches : List TimelineBranch :=
  [⟨"primary", "Alpha Timeline", "n1", 0.7, true⟩,
   ⟨"b7", "Branch B-7 (Cyberpunk)", "n6", 0.3, false⟩]

/-- `TemporalLogicEngine.__init__` followed by `_seed_timeline`. -/
def initial_state : EngineState :=
  { anchors := default_anchors
    causal_links := default_links
    branches := default_branches
    butterfly_index := 50
    action_history := [] }

def anchor_ids : List String := default_anchors.map fun a => a.id

/-- Python `round(q, 1)` (nearest tenth, used for display fields). -/
def round1 (q : ℚ) : ℚ := (round (q * 10) : ℚ) / 10

-- ─── BFS over causal links (`_find_causal_path`) ───

/-- Number of links whose source has not been visited yet; the decreasing
measure of the BFS loop. -/
def unvisitedSources (links : List CausalLink) (visited : List String) : ℕ :=
  (links.filter fun l => !visited.contains l.source_id).length

theorem length_filter_and_le {α : Type} (l : List α) (p q : α → Bool) :
    (l.filter fun a => p a && q a).length ≤ (l.filter p).length := by
  induction l with
  | nil => simp
  | cons a t ih =>
    by_cases hp : p a <;> by_cases hq : q a <;>
      simp [List.filter_cons, hp, hq] <;> omega

theorem unvisitedSources_cons (links : List CausalLink) (c : String)
    (visited : List String) (h : visited.contains c = false) :
    unvisitedSources links visited =
      unvisitedSources links (c :: visited) +
        (links.filter fun l => l.source_id == c).length := by
  have hc : c ∉ visited := by simpa using h
  induction links with
  | nil => simp [unvisitedSources]
  | cons l t ih =>
    simp only [unvisitedSources, List.filter_cons] at ih ⊢
    by_cases h1 : l.source_id = c
    · have hnv : l.source_id ∉ visited := by rwa [h1]
      simp [h1, hnv, hc, List.contains_cons] at ih ⊢
      omega
    · by_cases h2 : l.source_id ∈ visited
      · simp [h1, h2, List.contains_cons] at ih ⊢
        omega
      · simp [h1, h2, List.contains_cons] at ih ⊢
        omega

/-- The BFS loop of `TemporalLogicEngine._find_causal_path`: the queue holds
`(anchor id, path so far)` pairs, popped from the front; a popped node is
first compared against the target, then skipped if already visited, and
otherwise expanded along its outgoing links to unvisited targets. -/
def find_causal_path_aux (links : List CausalLink) (target_id : String) :
    List (String × List String) → List String → List String
  | [], _ => []
  | (current, path) :: rest, visited =>
    if current == target_id then path
    else if visited.contains current then
      find_causal_path_aux links target_id rest visited
    else
      find_causal_path_aux links target_id
        (rest ++ (links.filter fun l =>
            l.source_id == current && !(current :: visited).contains l.target_id).map
          fun l => (l.target_id, path ++ [l.target_id]))
        (current :: visited)
termination_by queue visited => queue.length + unvisitedSources links visited
decreasing_by
  · simp only [List.length_cons]
    omega
  · rename_i hvis
    have hv : visited.contains current = false := by
      simpa using hvis
    have h1 := unvisitedSources_cons links current visited hv
    have h2 := length_filter_and_le links (fun l => l.source_id == current)
      (fun l => !(current :: visited).contains l.target_id)
    simp only [List.length_append, List.length_map, List.length_cons]
    omega

/-- `TemporalLogicEngine._find_causal_path`. -/
def find_causal_path (links : List CausalLink) (source_id target_id : String) :
    List String :=
  find_causal_path_aux links target_id [(source_id, [source_id])] []

-- ─── Reference definitions for path minimality ───

/-- Reference predicate (not from the source): every consecutive pair of the
list is connected by some causal link. -/
def chain_ok (links : List CausalLink) : List String → Bool
  | a :: b :: rest =>
    links.any (fun l => l.source_id == a && l.target_id == b) &&
      chain_ok links (b :: rest)
  | _ => true

/-- Reference computation (not from the source): the set of nodes reachable
from `src` in at most `n` link steps, as a duplicate-free list. -/
def reach_within (links : List CausalLink) (src : String) : ℕ → List String
  | 0 => [src]
  | n + 1 =>
    let prev := reach_within links src n
    links.foldl (fun acc l =>
      if prev.contains l.source_id && !acc.contains l.target_id then
        acc ++ [l.target_id]
      else acc) prev

/-- Reference predicate (not from the source): `tgt` is reachable from `src`
in at most `n` link steps. -/
def dist_le (links : List CausalLink) (src tgt : String) (n : ℕ) : Bool :=
  (reach_within links src n).contains tgt

/-- Reference check (not from the source) used to compare `find_causal_path`
against its specification on one id pair: an empty result means the target is
not reachable within any number of steps bounded by the graph size, and a
non-empty result is an actual link chain from `a` to `b` of minimal length. -/
def pair_check (a b : String) : Bool :=
  let p := find_causal_path default_links a b
  if p.isEmpty then !(dist_le default_links a b 8)
  else
    chain_ok default_links p && (p.head? == some a) && (p.getLast? == some b) &&
      dist_le default_links a b (p.length - 1) &&
      (p.length == 1 || !(dist_le default_links a b (p.length - 2)))

-- ─── Procedural butterfly-effect path (`_procedural_reason`) ───

def save_words : List String := ["save", "protect", "warn", "help", "rescue"]
def destroy_words : List String := ["destroy", "kill", "delete", "remove", "stop"]
def change_words : List String := ["change", "alter", "modify", "move", "travel"]

def is_save_cmd (cmd_lower : List Char) : Bool :=
  save_words.any fun w => strContains cmd_lower w.data

def is_destroy_cmd (cmd_lower : List Char) : Bool :=
  destroy_words.any fun w => strContains cmd_lower w.data

def is_change_cmd (cmd_lower : List Char) : Bool :=
  change_words.any fun w => strContains cmd_lower w.data

/-- The base-plus-jitter paradox risk of `_procedural_reason`; `jitter` stands
for the `random.uniform` draw of the branch that is taken. -/
def base_paradox_risk (cmd_lower : List Char) (jitter : ℚ) : ℚ :=
  if is_destroy_cmd cmd_lower then 0.5 + jitter
  else if is_change_cmd cmd_lower then 0.3 + jitter
  else if is_save_cmd cmd_lower then 0.1 + jitter
  else 0.2 + jitter

/-- The interval `random.uniform` draws the jitter from in the branch that
`_procedural_reason` takes for this command. -/
def jitter_bounds (cmd_lower : List Char) : ℚ × ℚ :=
  if is_destroy_cmd cmd_lower then (0.1, 0.3)
  else if is_change_cmd cmd_lower then (0.05, 0.2)
  else if is_save_cmd cmd_lower then (0.05, 0.15)
  else (0, 0.1)

def valid_jitter (cmd_lower : List Char) (j : ℚ) : Prop :=
  (jitter_bounds cmd_lower).1 ≤ j ∧ j ≤ (jitter_bounds cmd_lower).2

/-- `TemporalLogicEngine._generate_narratives` (the `command` argument is
unused in the source as well). -/
def generate_narratives (_command era : String) (affected : List String)
    ( is_save is_destroy : Bool) : List String :=
  if is_save then
    ["Action in " ++ era ++ ": A life is preserved. The timeline shifts."]
    ++ (if affected.contains "Cyberpunk" then
          ["2847 AD: Neo-Kyoto\x27s architecture evolves — brass and organic motifs emerge"]
        else [])
    ++ (if affected.contains "Neo Age" then
          ["2200 AD: Colony resources redistribute based on new lineage"]
        else [])
  else if is_destroy then
    ["Action in " ++ era ++ ": Destruction ripples forward. Stability drops."]
    ++ (if affected.contains "Digital" then
          ["2024 AD: The Singularity event accelerates unpredictably"]
        else [])
    ++ (if affected.contains "Cyberpunk" then
          ["2847 AD: Neo-Kyoto descends further into dystopia"]
        else [])
  else
    ["Action in " ++ era ++ ": The timeline adjusts to accommodate changes",
     "Temporal flux detected across " ++ toString affected.length ++ " eras — recalibrating"]

/-- The fields of a `process_command` response that the properties concern.
`is_paradox` is present only on the procedural path, as in the source; the
randomized `world_state_delta` and the echo/trace strings are not modelled. -/
structure EngineResult where
  command : String
  source : String
  affected_eras : List String
  paradox_risk : ℚ
  narrative_changes : List String
  butterfly_index : ℚ
  is_paradox : Option Bool
deriving DecidableEq

/-- `TemporalLogicEngine._procedural_reason`. -/
def procedural_reason (s : EngineState) (command era : String) (jitter : ℚ) :
    EngineResult × EngineState :=
  let cmd_lower := lowerStr command
  let is_save := is_save_cmd cmd_lower
  let is_destroy := is_destroy_cmd cmd_lower
  let paradox_risk := base_paradox_risk cmd_lower jitter
  let era_anchor := s.anchors.find? fun a => a.era == era
  let affected_eras :=
    match era_anchor with
    | none => [era]
    | some anchor =>
      s.causal_links.foldl (fun acc link =>
        if link.source_id == anchor.id then
          match s.anchors.find? fun a => a.id == link.target_id with
          | some target => if acc.contains target.era then acc else acc ++ [target.era]
          | none => acc
        else acc) [era]
  let narratives := generate_narratives command era affected_eras is_save is_destroy
  let s := { s with
      butterfly_index := min 100 (max 0 (s.butterfly_index + paradox_risk * 12)) }
  let is_paradox : Bool := decide (paradox_risk > 0.7)
  let s :=
    if is_paradox then
      match era_anchor with
      | some anchor =>
        { s with anchors := s.anchors.map fun a =>
            if a.id == anchor.id then { a with status := "paradox" } else a }
      | none => s
    else s
  let narratives :=
    if is_paradox && era_anchor.isSome then
      narratives ++ ["⚠ PARADOX WARNING: Causal loop approaching gridlock threshold"]
    else narratives
  (⟨command, "procedural_engine", affected_eras, round3 paradox_risk, narratives,
    round1 s.butterfly_index, some is_paradox⟩, s)

-- ─── Oracle path (`_gemini_reason`) and `process_command` ───

/-- A JSON field of the decoded oracle response: absent, present with a value
of the expected type, or present with a value of the wrong type. -/
inductive JsonField (α : Type) where
  | absent
  | ill_typed
  | value (a : α)
deriving DecidableEq

/-- The decoded oracle JSON object, as `_gemini_reason` reads it.  The two
list-valued fields are only stored, never computed with, so an ill-typed
value there never raises; `paradox_risk` flows into arithmetic, so an
ill-typed value raises a `TypeError` (modelled by `JsonField.ill_typed`). -/
structure OracleSuggestion where
  paradox_risk : JsonField ℚ
  affected_eras : Option (List String)
  narrative_changes : Option (List String)
deriving DecidableEq

/-- The state update and response construction of `_gemini_reason` after the
`result.get` extraction of `paradox_risk`. -/
def gemini_apply (s : EngineState) (command era : String) (r : OracleSuggestion)
    (paradox_risk : ℚ) : EngineResult × EngineState :=
  let s := { s with butterfly_index := min 100 (s.butterfly_index + paradox_risk * 15) }
  (⟨command, "gemini_deep_think", r.affected_eras.getD [era], paradox_risk,
    r.narrative_changes.getD [], round1 s.butterfly_index, none⟩, s)

/-- `TemporalLogicEngine._gemini_reason` from the point where the oracle
response is in hand: `response = none` models a `json.loads` failure (the
source falls back to `_procedural_reason` there); a raised `TypeError` from
`paradox_risk * 15` on an ill-typed field is modelled by `Except.error` and
is caught by `process_command`. -/
def gemini_reason (s : EngineState) (command era : String)
    (response : Option OracleSuggestion) (jitter : ℚ) :
    Except Unit (EngineResult × EngineState) :=
  match response with
  | none => .ok (procedural_reason s command era jitter)
  | some r =>
    match r.paradox_risk with
    | .ill_typed => .error ()
    | .absent => .ok (gemini_apply s command era r 0.2)
    | .value q => .ok (gemini_apply s command era r q)

/-- How the oracle call went: not configured, raised an exception (network
error, timeout, `TypeError`, ...), or returned a response whose JSON decode
either failed (`none`) or produced an object. -/
inductive OracleOutcome where
  | unavailable
  | raised
  | response (parsed : Option OracleSuggestion)
deriving DecidableEq

/-- `TemporalLogicEngine.process_command`: append to the action history, try
the oracle path when a client is configured, catch any exception from it,
and fall back to the procedural path. -/
def process_command (s : EngineState) (command era : String)
    (oracle : OracleOutcome) (jitter : ℚ) : EngineResult × EngineState :=
  let s := { s with action_history := s.action_history ++ [(command, era)] }
  match oracle with
  | .unavailable => procedural_reason s command era jitter
  | .raised => procedural_reason s command era jitter
  | .response parsed =>
    match gemini_reason s command era parsed jitter with
    | .ok out => out
    | .error _ => procedural_reason s command era jitter

-- ─── `check_causality` and `get_timeline_state` ───

inductive CausalityResult where
  | notFound (reason : String)
  | report (valid : Bool) (path : List String) (paradox_risk : ℚ)
      (chain_length : ℕ) (description : String)
deriving DecidableEq

def CausalityResult.valid : CausalityResult → Bool
  | .notFound _ => false
  | .report v _ _ _ _ => v

/-- `TemporalLogicEngine.check_causality`. -/
def check_causality (s : EngineState) (source_era target_era : String) :
    CausalityResult × EngineState :=
  let source_anchors := s.anchors.filter fun a => a.era == source_era
  let target_anchors := s.anchors.filter fun a => a.era == target_era
  match source_anchors.head?, target_anchors.head? with
  | some sa, some ta =>
    let path := find_causal_path s.causal_links sa.id ta.id
    let paradox_risk := s.causal_links.foldl
      (fun acc link =>
        if path.contains link.source_id && link.effect_type == "negative" then
          acc + link.magnitude * 0.3
        else acc) 0
    (.report (decide (0 < path.length)) path (min paradox_risk 1) path.length
      ("Causal chain from " ++ source_era ++ " to " ++ target_era ++ ": " ++
        toString path.length ++ " links"), s)
  | _, _ => (.notFound "Era not found in timeline", s)

structure TimelineState where
  anchors : List TemporalAnchor
  branches : List TimelineBranch
  butterfly_index : ℚ
  active_branch : String
  total_actions : ℕ
deriving DecidableEq

/-- `TemporalLogicEngine.get_timeline_state` (a read-only snapshot). -/
def get_timeline_state (s : EngineState) : TimelineState × EngineState :=
  (⟨s.anchors, s.branches, round1 s.butterfly_index,
    (match s.branches.find? fun b => b.is_primary with
     | some b => b.name
     | none => "Alpha Timeline"),
    s.action_history.length⟩, s)

/-- Iterated procedural `process_command` calls (the oracle never configured),
for trace-level statements. -/
def run_procedural (s : EngineState) : List (String × String × ℚ) → EngineState
  | [] => s
  | (command, era, jitter) :: rest =>
    run_procedural (process_command s command era .unavailable jitter).2 rest

-- ─────────────────────────────────────────────
-- Helper lemmas
-- ─────────────────────────────────────────────

theorem round3_nonneg {q : ℚ} (h : 0 ≤ q) : 0 ≤ round3 q := by
  unfold round3
  have hr : (0 : ℤ) ≤ round (q * 1000) := by
    rw [round_eq]
    exact Int.le_floor.mpr (by push_cast; linarith)
  exact div_nonneg (by exact_mod_cast hr) (by norm_num)

theorem round3_le_one {q : ℚ} (h : q ≤ 1) : round3 q ≤ 1 := by
  unfold round3
  rw [div_le_one (by norm_num)]
  have h1 : (⌊(1000 : ℚ) + 1 / 2⌋ : ℤ) = 1000 := by
    rw [Int.floor_eq_iff] <;> norm_num
  have h2 : round (q * 1000) ≤ 1000 := by
    rw [round_eq]
    calc ⌊q * 1000 + 1 / 2⌋ ≤ ⌊(1000 : ℚ) + 1 / 2⌋ := Int.floor_mono (by linarith)
    _ = 1000 := h1
  exact_mod_cast h2

theorem filter_isEmpty_eq_not_any {α : Type} (l : List α) (p : α → Bool) :
    (l.filter p).isEmpty = !l.any p := by
  induction l with
  | nil => rfl
  | cons a t ih => by_cases h : p a <;> simp [List.filter_cons, h, ih]

theorem isEmpty_map {α β : Type} (f : α → β) (l : List α) :
    (l.map f).isEmpty = l.isEmpty := by
  cases l <;> rfl

-- ─────────────────────────────────────────────
-- Claims about the Paradox Limiter
-- ─────────────────────────────────────────────

/-- Claim C1: for `proposed_risk ∈ [0,1]` and `butterfly_index ∈ [0,100]`,
`check_paradox_risk` computes `combined_risk = proposed_risk*0.6 +
(butterfly_index/100)*0.4`, which always lies in [0,1] (as does the rounded
field the decision carries); `combined ≥ 0.85` yields a disallowed
`"gridlock"` decision that increments the gridlock counter by exactly one and
resets `actions_since_gridlock` to 0; `0.70 ≤ combined < 0.85` yields an
allowed `"warning"` decision; `combined < 0.70` yields an allowed `"safe"`
decision. -/
theorem check_paradox_risk_thresholds (s : LimiterState) (p b : ℚ)
    (hp0 : 0 ≤ p) (hp1 : p ≤ 1) (hb0 : 0 ≤ b) (hb1 : b ≤ 100) :
    0 ≤ p * 0.6 + b / 100 * 0.4 ∧ p * 0.6 + b / 100 * 0.4 ≤ 1 ∧
    (check_paradox_risk s p b).1.combined_risk = round3 (p * 0.6 + b / 100 * 0.4) ∧
    0 ≤ (check_paradox_risk s p b).1.combined_risk ∧
    (check_paradox_risk s p b).1.combined_risk ≤ 1 ∧
    (0.85 ≤ p * 0.6 + b / 100 * 0.4 →
      (check_paradox_risk s p b).1.allowed = false ∧
      (check_paradox_risk s p b).1.status = "gridlock" ∧
      (check_paradox_risk s p b).2.gridlock_count = s.gridlock_count + 1 ∧
      (check_paradox_risk s p b).2.actions_since_gridlock = 0) ∧
    (0.70 ≤ p * 0.6 + b / 100 * 0.4 → p * 0.6 + b / 100 * 0.4 < 0.85 →
      (check_paradox_risk s p b).1.allowed = true ∧
      (check_paradox_risk s p b).1.status = "warning") ∧
    (p * 0.6 + b / 100 * 0.4 < 0.70 →
      (check_paradox_risk s p b).1.allowed = true ∧
      (check_paradox_risk s p b).1.status = "safe") := by
  have hc0 : 0 ≤ p * 0.6 + b / 100 * 0.4 := by linarith
  have hc1 : p * 0.6 + b / 100 * 0.4 ≤ 1 := by linarith
  refine ⟨hc0, hc1, ?_, ?_, ?_, ?_, ?_, ?_⟩
  · simp only [check_paradox_risk]
    split_ifs <;> rfl
  · have he : (check_paradox_risk s p b).1.combined_risk =
        round3 (p * 0.6 + b / 100 * 0.4) := by
      simp only [check_paradox_risk]; split_ifs <;> rfl
    rw [he]
    exact round3_nonneg hc0
  · have he : (check_paradox_risk s p b).1.combined_risk =
        round3 (p * 0.6 + b / 100 * 0.4) := by
      simp only [check_paradox_risk]; split_ifs <;> rfl
    rw [he]
    exact round3_le_one hc1
  · intro h
    simp only [check_paradox_risk]
    split_ifs with h1 h2
    · exact ⟨rfl, rfl, rfl, rfl⟩
    · exact absurd h h1
    · exact absurd h h1
  · intro h h'
    simp only [check_paradox_risk]
    split_ifs with h1 h2
    · exact absurd h1 (not_le.mpr (by simpa [PARADOX_THRESHOLD] using h'))
    · exact ⟨rfl, rfl⟩
    · exact absurd h h2
  · intro h
    simp only [check_paradox_risk]
    split_ifs with h1 h2
    · exact absurd h1 (not_le.mpr (by simp only [PARADOX_THRESHOLD]; linarith))
    · exact absurd h2 (not_le.mpr (by simp only [WARNING_THRESHOLD]; linarith))
    · exact ⟨rfl, rfl⟩

unseal Rat.mul Rat.inv Rat.add Rat.sub Rat.ofScientific in
/-- Witness for C1 at the spec scenario `check_paradox_risk(1.0, 95.0)`:
combined risk 0.98, gridlock, disallowed, gridlock counter 0 → 1. -/
theorem check_paradox_risk_thresholds_witness :
    (0 : ℚ) ≤ 1 ∧ (1 : ℚ) ≤ 1 ∧ (0 : ℚ) ≤ 95 ∧ (95 : ℚ) ≤ 100 ∧
    (0.85 : ℚ) ≤ 1 * 0.6 + 95 / 100 * 0.4 ∧
    (check_paradox_risk .init 1 95).1.allowed = false ∧
    (check_paradox_risk .init 1 95).1.status = "gridlock" ∧
    (check_paradox_risk .init 1 95).2.gridlock_count =
      LimiterState.init.gridlock_count + 1 ∧
    (check_paradox_risk .init 1 95).2.actions_since_gridlock = 0 := by
  obtain ⟨-, -, -, -, -, hg, -, -⟩ :=
    check_paradox_risk_thresholds .init 1 95 (by decide) (by decide) (by decide) (by decide)
  obtain ⟨h1, h2, h3, h4⟩ := hg (by decide)
  exact ⟨by decide, by decide, by decide, by decide, by decide, h1, h2, h3, h4⟩

/-- Claim C2: on every `check_paradox_risk` call with `proposed_risk ∈ [0,1]`
and accumulator in [0,1], the accumulator is unconditionally nudged to
`min 1 (acc + proposed_risk*0.1)` (a value itself in [0,1]); the nudge is the
final accumulator on the gridlock and warning branches (not undone on
gridlock), while the safe branch further applies the cooldown
`max 0 (nudged - 0.05)`; the resulting accumulator is always in [0,1]. -/
theorem check_paradox_risk_accumulator (s : LimiterState) (p b : ℚ)
    (hp0 : 0 ≤ p) (hp1 : p ≤ 1) (ha0 : 0 ≤ s.paradox_accumulator)
    (ha1 : s.paradox_accumulator ≤ 1) :
    0 ≤ min 1 (s.paradox_accumulator + p * 0.1) ∧
    min 1 (s.paradox_accumulator + p * 0.1) ≤ 1 ∧
    ((check_paradox_risk s p b).1.status = "gridlock" ∨
        (check_paradox_risk s p b).1.status = "warning" →
      (check_paradox_risk s p b).2.paradox_accumulator =
        min 1 (s.paradox_accumulator + p * 0.1)) ∧
    ((check_paradox_risk s p b).1.status = "safe" →
      (check_paradox_risk s p b).2.paradox_accumulator =
        max 0 (min 1 (s.paradox_accumulator + p * 0.1) - 0.05)) ∧
    0 ≤ (check_paradox_risk s p b).2.paradox_accumulator ∧
    (check_paradox_risk s p b).2.paradox_accumulator ≤ 1 := by
  have hn0 : 0 ≤ min 1 (s.paradox_accumulator + p * 0.1) :=
    le_min (by norm_num) (by nlinarith)
  have hn1 : min 1 (s.paradox_accumulator + p * 0.1) ≤ 1 := min_le_left 1 _
  refine ⟨hn0, hn1, ?_, ?_, ?_, ?_⟩
  · simp only [check_paradox_risk]
    split_ifs <;> intro hst
    · rfl
    · rfl
    · rcases hst with h | h <;> simp at h
  · simp only [check_paradox_risk]
    split_ifs <;> intro hst
    · simp at hst
    · simp at hst
    · rfl
  · simp only [check_paradox_risk]
    split_ifs
    · exact hn0
    · exact hn0
    · exact le_max_left 0 _
  · simp only [check_paradox_risk]
    split_ifs
    · exact hn1
    · exact hn1
    · refine max_le (by norm_num) ?_
      simp only [COOLDOWN_RATE]
      linarith

unseal Rat.mul Rat.inv Rat.add Rat.sub Rat.ofScientific in
/-- Witness for C2 at `proposed_risk = 1`, `butterfly_index = 95` from the
half-full initial accumulator 0.5: the gridlock branch keeps the nudge. -/
theorem check_paradox_risk_accumulator_witness :
    (0 : ℚ) ≤ 1 ∧ (1 : ℚ) ≤ 1 ∧ (0 : ℚ) ≤ (1 / 2 : ℚ) ∧ (1 / 2 : ℚ) ≤ 1 ∧
    (check_paradox_risk ⟨1 / 2, 0, 0⟩ 1 95).1.status = "gridlock" ∧
    (check_paradox_risk ⟨1 / 2, 0, 0⟩ 1 95).2.paradox_accumulator =
      min 1 ((1 / 2 : ℚ) + 1 * 0.1) := by
  obtain ⟨-, -, hkeep, -, -, -⟩ :=
    check_paradox_risk_accumulator ⟨1 / 2, 0, 0⟩ 1 95
      (by decide) (by decide) (by decide) (by decide)
  exact ⟨by decide, by decide, by decide, by decide, by decide, hkeep (.inl (by decide))⟩

-- ─────────────────────────────────────────────
-- Claims about the Safety Filter and Ethics Board
-- ─────────────────────────────────────────────

/-- Claim C7: `check_content` is a case-insensitive substring scan in which
any high-risk keyword match forces `risk_level = "blocked"` and
`is_safe = false`; absent a high-risk match, any medium-risk match yields
`"warning"` with `is_safe = true`; absent both, low-risk matches are recorded
as the violations but the verdict stays `"safe"`; and the empty string is
classified safe with no violations. -/
theorem check_content_classification (text : String) :
    ((SENSITIVE_high_risk.any fun k => strContains (lowerStr text) k.data) = true →
      (check_content text).risk_level = "blocked" ∧
      (check_content text).is_safe = false) ∧
    ((SENSITIVE_high_risk.any fun k => strContains (lowerStr text) k.data) = false →
     (SENSITIVE_medium_risk.any fun k => strContains (lowerStr text) k.data) = true →
      (check_content text).risk_level = "warning" ∧
      (check_content text).is_safe = true) ∧
    ((SENSITIVE_high_risk.any fun k => strContains (lowerStr text) k.data) = false →
     (SENSITIVE_medium_risk.any fun k => strContains (lowerStr text) k.data) = false →
      (check_content text).risk_level = "safe" ∧
      (check_content text).is_safe = true ∧
      (check_content text).violations =
        (SENSITIVE_low_risk.filter fun k => strContains (lowerStr text) k.data).map
          fun k => Violation.mk k "low") ∧
    check_content "" = ⟨true, "safe", [], "✓ Content passes safety checks."⟩ := by
  refine ⟨?_, ?_, ?_, by decide⟩
  · intro hh
    simp only [check_content, isEmpty_map, filter_isEmpty_eq_not_any, hh, Bool.not_true,
      Bool.false_eq_true, if_false, reduceIte, List.isEmpty_nil, String.reduceEq]
    exact ⟨trivial, by decide⟩
  · intro hh hm
    simp only [check_content, isEmpty_map, filter_isEmpty_eq_not_any, hh, hm, Bool.not_true,
      Bool.not_false, Bool.false_eq_true, if_false, reduceIte, List.isEmpty_nil,
      String.reduceEq]
    exact ⟨trivial, by decide⟩
  · intro hh hm
    have hfh : (SENSITIVE_high_risk.filter fun k => strContains (lowerStr text) k.data) = [] := by
      rw [List.filter_eq_nil_iff]
      intro a ha hcon
      have hany : (SENSITIVE_high_risk.any fun k => strContains (lowerStr text) k.data) = true :=
        List.any_eq_true.mpr ⟨a, ha, hcon⟩
      rw [hh] at hany
      exact Bool.false_ne_true hany
    have hfm : (SENSITIVE_medium_risk.filter fun k => strContains (lowerStr text) k.data) = [] := by
      rw [List.filter_eq_nil_iff]
      intro a ha hcon
      have hany : (SENSITIVE_medium_risk.any fun k => strContains (lowerStr text) k.data) = true :=
        List.any_eq_true.mpr ⟨a, ha, hcon⟩
      rw [hm] at hany
      exact Bool.false_ne_true hany
    simp only [check_content, hfh, hfm, List.map_nil, List.isEmpty_nil, reduceIte,
      String.reduceEq, List.nil_append]
    exact ⟨trivial, by decide, trivial⟩

/-- Witness for C7 on the three representative commands of the test suite:
a high-risk, a medium-risk and a low-risk-only text. -/
theorem check_content_classification_witness :
    (check_content "Commit genocide against the villagers").risk_level = "blocked" ∧
    (check_content "Commit genocide against the villagers").is_safe = false ∧
    (check_content "Enslave the population of the era").risk_level = "warning" ∧
    (check_content "Enslave the population of the era").is_safe = true ∧
    (check_content "Battle the castle guards").risk_level = "safe" ∧
    (check_content "Battle the castle guards").is_safe = true := by
  obtain ⟨hb, -, -, -⟩ := check_content_classification "Commit genocide against the villagers"
  obtain ⟨-, hw, -, -⟩ := check_content_classification "Enslave the population of the era"
  obtain ⟨-, -, hs, -⟩ := check_content_classification "Battle the castle guards"
  obtain ⟨h1, h2⟩ := hb (by decide)
  obtain ⟨h3, h4⟩ := hw (by decide) (by decide)
  obtain ⟨h5, h6, -⟩ := hs (by decide) (by decide)
  exact ⟨h1, h2, h3, h4, h5, h6⟩

/-- Claim C3: whenever the content-safety check of the command is unsafe,
`evaluate_action` rejects with reason `content_safety` and the filter verdict
as details, and the paradox limiter is not invoked: its state (accumulator,
gridlock counter, actions-since-gridlock counter) is exactly unchanged. -/
theorem evaluate_action_content_safety (s : LimiterState) (command : String)
    (pr bi : ℚ) (h : (check_content command).is_safe = false) :
    evaluate_action s command pr bi = (.blockedContent (check_content command), s) ∧
    (evaluate_action s command pr bi).1.approved = false ∧
    (evaluate_action s command pr bi).1.reason = some "content_safety" ∧
    (evaluate_action s command pr bi).2 = s := by
  have he : evaluate_action s command pr bi =
      (.blockedContent (check_content command), s) := by
    simp [evaluate_action, h]
  refine ⟨he, ?_, ?_, ?_⟩ <;> rw [he] <;> rfl

/-- Witness for C3 at the spec scenario
`evaluate_action("Commit genocide against the villagers", 0.1, 30.0)` from a
non-trivial limiter state. -/
theorem evaluate_action_content_safety_witness :
    (check_content "Commit genocide against the villagers").is_safe = false ∧
    (evaluate_action ⟨1 / 2, 2, 3⟩ "Commit genocide against the villagers"
      0.1 30).1.reason = some "content_safety" ∧
    (evaluate_action ⟨1 / 2, 2, 3⟩ "Commit genocide against the villagers"
      0.1 30).1.approved = false ∧
    (evaluate_action ⟨1 / 2, 2, 3⟩ "Commit genocide against the villagers"
      0.1 30).2 = ⟨1 / 2, 2, 3⟩ := by
  have h : (check_content "Commit genocide against the villagers").is_safe = false := by
    decide
  obtain ⟨-, ha, hr, hs⟩ := evaluate_action_content_safety ⟨1 / 2, 2, 3⟩
    "Commit genocide against the villagers" 0.1 30 h
  exact ⟨h, hr, ha, hs⟩

-- ─────────────────────────────────────────────
-- Claims about the procedural/oracle reasoning paths
-- ─────────────────────────────────────────────

theorem base_paradox_risk_nonneg (cl : List Char) {j : ℚ} (hj : 0 ≤ j) :
    0 ≤ base_paradox_risk cl j := by
  unfold base_paradox_risk
  split_ifs <;> [skip; skip; skip; skip] <;>
    first
      | (refine add_nonneg ?_ hj; norm_num)

theorem procedural_reason_butterfly (s : EngineState) (cmd era : String) (j : ℚ) :
    (procedural_reason s cmd era j).2.butterfly_index =
      min 100 (max 0 (s.butterfly_index + base_paradox_risk (lowerStr cmd) j * 12)) := by
  rcases hfind : s.anchors.find? fun a => a.era == era with _ | anchor <;>
    simp only [procedural_reason, hfind] <;> split_ifs <;> rfl

theorem procedural_step_bounds (s : EngineState) (cmd era : String) (j : ℚ)
    (hj : 0 ≤ j) (hb0 : 0 ≤ s.butterfly_index) (hb1 : s.butterfly_index ≤ 100) :
    s.butterfly_index ≤ (process_command s cmd era .unavailable j).2.butterfly_index ∧
    0 ≤ (process_command s cmd era .unavailable j).2.butterfly_index ∧
    (process_command s cmd era .unavailable j).2.butterfly_index ≤ 100 := by
  have hpr : 0 ≤ base_paradox_risk (lowerStr cmd) j := base_paradox_risk_nonneg _ hj
  have he : (process_command s cmd era .unavailable j).2.butterfly_index =
      min 100 (max 0 (s.butterfly_index + base_paradox_risk (lowerStr cmd) j * 12)) :=
    procedural_reason_butterfly { s with action_history := s.action_history ++ [(cmd, era)] }
      cmd era j
  rw [he]
  refine ⟨le_min hb1 (le_trans (by nlinarith) (le_max_right 0 _)), ?_, min_le_left 100 _⟩
  exact le_min (by norm_num) (le_max_left 0 _)

/-- Claim C9 (amended): on the procedural path the butterfly-index update is
exactly `butterfly_index += paradox_risk * 12` clamped to [0,100], and the
resulting index always lies in [0,100]; on the oracle path the update is
`butterfly_index += paradox_risk * 15` clamped only from above at 100, so the
index stays in [0,100] only under the additional assumption that the oracle
value is nonnegative (see the counterexample for a violating negative value). -/
theorem butterfly_index_clamping (s : EngineState) (cmd era : String) (j : ℚ) :
    ((procedural_reason s cmd era j).2.butterfly_index =
      min 100 (max 0 (s.butterfly_index + base_paradox_risk (lowerStr cmd) j * 12))) ∧
    0 ≤ (procedural_reason s cmd era j).2.butterfly_index ∧
    (procedural_reason s cmd era j).2.butterfly_index ≤ 100 ∧
    (∀ q ae nc,
      (process_command s cmd era (.response (some ⟨.value q, ae, nc⟩)) j).2.butterfly_index =
        min 100 (s.butterfly_index + q * 15)) ∧
    (∀ q ae nc, 0 ≤ q → 0 ≤ s.butterfly_index →
      0 ≤ (process_command s cmd era
            (.response (some ⟨.value q, ae, nc⟩)) j).2.butterfly_index ∧
      (process_command s cmd era
            (.response (some ⟨.value q, ae, nc⟩)) j).2.butterfly_index ≤ 100) := by
  have he := procedural_reason_butterfly s cmd era j
  refine ⟨he, ?_, ?_, fun q ae nc => rfl, fun q ae nc hq hb => ?_⟩
  · rw [he]; exact le_min (by norm_num) (le_max_left 0 _)
  · rw [he]; exact min_le_left 100 _
  · constructor
    · exact le_min (by norm_num) (by nlinarith)
    · exact min_le_left 100 _

unseal Rat.mul Rat.inv Rat.add Rat.sub Rat.ofScientific in
/-- Witness for C9 at `initial_state` (index 50) with an in-range oracle
paradox risk 1/2. -/
theorem butterfly_index_clamping_witness :
    (0 : ℚ) ≤ 0 ∧ (0 : ℚ) ≤ 1 / 2 ∧ (0 : ℚ) ≤ initial_state.butterfly_index ∧
    0 ≤ (process_command initial_state "observe the stars" "Renaissance"
          (.response (some ⟨.value (1 / 2), none, none⟩)) 0).2.butterfly_index ∧
    (process_command initial_state "observe the stars" "Renaissance"
          (.response (some ⟨.value (1 / 2), none, none⟩)) 0).2.butterfly_index ≤ 100 ∧
    0 ≤ (procedural_reason initial_state "observe the stars" "Renaissance"
          0).2.butterfly_index := by
  obtain ⟨-, hp0, -, -, hor⟩ :=
    butterfly_index_clamping initial_state "observe the stars" "Renaissance" 0
  obtain ⟨h1, h2⟩ := hor (1 / 2) none none (by decide) (by decide)
  exact ⟨by decide, by decide, by decide, h1, h2, hp0⟩

unseal Rat.mul Rat.inv Rat.add Rat.sub Rat.ofScientific in
/-- Counterexample to C9 as stated: a decoded oracle suggestion with the
(unvalidated) negative `paradox_risk = -100` drives the global butterfly
index to -1450, outside [0,100], because the oracle-path update has no lower
clamp. -/
theorem butterfly_index_clamping_counterexample :
    (process_command initial_state "observe the stars" "Renaissance"
        (.response (some ⟨.value (-100), none, none⟩)) 0).2.butterfly_index = -1450 ∧
    (process_command initial_state "observe the stars" "Renaissance"
        (.response (some ⟨.value (-100), none, none⟩)) 0).2.butterfly_index < 0 := by
  exact ⟨by decide, by decide⟩

/-- Claim C4 (amended): the engine falls back to the procedural algorithm on
a JSON decode failure and on any raised oracle exception (including the type
error a non-numeric `paradox_risk` causes), so no oracle failure is surfaced
to the caller of `process_command`; but a successfully decoded suggestion is
not validated for field presence, types or ranges: a missing `paradox_risk`
silently defaults to 0.2 and an out-of-range numeric value is used as-is
(see the counterexample). -/
theorem gemini_fallback_no_validation (s : EngineState) (cmd era : String) (j : ℚ) :
    (process_command s cmd era (.response none) j =
      process_command s cmd era .unavailable j) ∧
    (process_command s cmd era .raised j =
      process_command s cmd era .unavailable j) ∧
    (∀ ae nc, process_command s cmd era (.response (some ⟨.ill_typed, ae, nc⟩)) j =
      process_command s cmd era .unavailable j) ∧
    (∀ ae nc,
      (process_command s cmd era (.response (some ⟨.absent, ae, nc⟩)) j).1.source =
        "gemini_deep_think" ∧
      (process_command s cmd era
          (.response (some ⟨.absent, ae, nc⟩)) j).1.paradox_risk = 0.2) ∧
    (∀ q ae nc,
      (process_command s cmd era (.response (some ⟨.value q, ae, nc⟩)) j).1.source =
        "gemini_deep_think" ∧
      (process_command s cmd era
          (.response (some ⟨.value q, ae, nc⟩)) j).1.paradox_risk = q) := by
  exact ⟨rfl, rfl, fun ae nc => rfl, fun ae nc => ⟨rfl, rfl⟩, fun q ae nc => ⟨rfl, rfl⟩⟩

unseal Rat.mul Rat.inv Rat.add Rat.sub Rat.ofScientific in
/-- Counterexample to C4 as stated: a decoded suggestion with the out-of-range
`paradox_risk = 5` is not rejected and does not trigger the procedural
fallback — the oracle-sourced result carries the invalid value to the caller. -/
theorem gemini_fallback_no_validation_counterexample :
    (process_command initial_state "observe the stars" "Renaissance"
        (.response (some ⟨.value 5, none, none⟩)) 0).1.source = "gemini_deep_think" ∧
    (process_command initial_state "observe the stars" "Renaissance"
        (.response (some ⟨.value 5, none, none⟩)) 0).1.paradox_risk = 5 ∧
    ¬ (process_command initial_state "observe the stars" "Renaissance"
        (.response (some ⟨.value 5, none, none⟩)) 0).1.paradox_risk ≤ 1 := by
  exact ⟨by decide, by decide, by decide⟩

/-- Claim C5 (amended): intent is classified by keyword membership in the
non-exclusive save/destroy/change buckets, but the base paradox-risk branch
uses first-match-wins priority destroy, change, save, other — destroy checked
first, not save — while the narrative branch checks save first, then destroy;
so a command containing both a save keyword and a destroy keyword draws its
base risk from the destroy range yet tells the save narrative. -/
theorem intent_priority (cl : List Char) (j : ℚ) :
    (is_save_cmd cl = true ↔ ∃ w ∈ save_words, strContains cl w.data = true) ∧
    (is_destroy_cmd cl = true ↔ ∃ w ∈ destroy_words, strContains cl w.data = true) ∧
    (is_change_cmd cl = true ↔ ∃ w ∈ change_words, strContains cl w.data = true) ∧
    (is_destroy_cmd cl = true → base_paradox_risk cl j = 0.5 + j) ∧
    (is_destroy_cmd cl = false → is_change_cmd cl = true →
      base_paradox_risk cl j = 0.3 + j) ∧
    (is_destroy_cmd cl = false → is_change_cmd cl = false → is_save_cmd cl = true →
      base_paradox_risk cl j = 0.1 + j) ∧
    (is_destroy_cmd cl = false → is_change_cmd cl = false → is_save_cmd cl = false →
      base_paradox_risk cl j = 0.2 + j) ∧
    (∀ c era affected d, (generate_narratives c era affected true d).head? =
      some ("Action in " ++ era ++ ": A life is preserved. The timeline shifts.")) ∧
    (∀ c era affected, (generate_narratives c era affected false true).head? =
      some ("Action in " ++ era ++ ": Destruction ripples forward. Stability drops.")) := by
  refine ⟨?_, ?_, ?_, ?_, ?_, ?_, ?_, ?_, ?_⟩
  · simpa [is_save_cmd] using List.any_eq_true
  · simpa [is_destroy_cmd] using List.any_eq_true
  · simpa [is_change_cmd] using List.any_eq_true
  · intro hd
    simp [base_paradox_risk, hd]
  · intro hd hc
    simp [base_paradox_risk, hd, hc]
  · intro hd hc hs
    simp [base_paradox_risk, hd, hc, hs]
  · intro hd hc hs
    simp [base_paradox_risk, hd, hc, hs]
  · intro c era affected d
    simp only [generate_narratives, if_true]
    split_ifs <;> rfl
  · intro c era affected
    simp only [generate_narratives, Bool.false_eq_true, if_false, if_true]
    split_ifs <;> rfl

unseal Rat.mul Rat.inv Rat.add Rat.sub Rat.ofScientific in
/-- Counterexample to C5 as stated: a command holding both a save keyword and
a destroy keyword is priced by the destroy branch (0.5 + jitter), not the
save branch (0.1 + jitter), for a jitter (0.1) valid in both buckets. -/
theorem intent_priority_counterexample :
    is_save_cmd (lowerStr "save the king and destroy the bridge") = true ∧
    is_destroy_cmd (lowerStr "save the king and destroy the bridge") = true ∧
    base_paradox_risk (lowerStr "save the king and destroy the bridge") (1 / 10) =
      0.5 + 1 / 10 ∧
    base_paradox_risk (lowerStr "save the king and destroy the bridge") (1 / 10) ≠
      0.1 + 1 / 10 := by
  exact ⟨by decide, by decide, by decide, by decide⟩

/-- Witness for C5 (amended) at a destroy-only and a save-only command. -/
theorem intent_priority_witness :
    is_destroy_cmd (lowerStr "destroy the bridge") = true ∧
    base_paradox_risk (lowerStr "destroy the bridge") (1 / 10) = 0.5 + 1 / 10 ∧
    is_destroy_cmd (lowerStr "save the king") = false ∧
    is_change_cmd (lowerStr "save the king") = false ∧
    is_save_cmd (lowerStr "save the king") = true ∧
    base_paradox_risk (lowerStr "save the king") (1 / 10) = 0.1 + 1 / 10 := by
  obtain ⟨-, -, -, hd, -, hs, -, -, -⟩ :=
    intent_priority (lowerStr "destroy the bridge") (1 / 10)
  obtain ⟨-, -, -, -, -, hs2, -, -, -⟩ :=
    intent_priority (lowerStr "save the king") (1 / 10)
  exact ⟨by decide, hd (by decide), by decide, by decide, by decide,
    hs2 (by decide) (by decide) (by decide)⟩

/-- Claim C10: under the procedural path the global butterfly index starts at
50, every `process_command` adds `paradox_risk * 12` (with a paradox risk of
at least 0.15 in every intent bucket, given a jitter from the drawn range)
before clamping at 100, so along any procedural trace the index is
monotonically non-decreasing and stays in [0,100]; and neither
`check_causality` nor `get_timeline_state` writes any engine state. -/
theorem butterfly_index_monotone (steps : List (String × String × ℚ)) :
    initial_state.butterfly_index = 50 ∧
    (∀ cl j, valid_jitter cl j → 0.15 ≤ base_paradox_risk cl j) ∧
    (∀ s cmd era j, 0 ≤ j → 0 ≤ s.butterfly_index → s.butterfly_index ≤ 100 →
      s.butterfly_index ≤ (process_command s cmd era .unavailable j).2.butterfly_index ∧
      (process_command s cmd era .unavailable j).2.butterfly_index =
        min 100 (max 0 (s.butterfly_index + base_paradox_risk (lowerStr cmd) j * 12))) ∧
    (∀ s : EngineState, (∀ x ∈ steps, 0 ≤ x.2.2) →
      0 ≤ s.butterfly_index → s.butterfly_index ≤ 100 →
      s.butterfly_index ≤ (run_procedural s steps).butterfly_index ∧
      0 ≤ (run_procedural s steps).butterfly_index ∧
      (run_procedural s steps).butterfly_index ≤ 100) ∧
    (∀ s a b, (check_causality s a b).2 = s) ∧
    (∀ s, (get_timeline_state s).2 = s) := by
  refine ⟨rfl, ?_, ?_, ?_, ?_, fun s => rfl⟩
  · intro cl j hv
    obtain ⟨h1, h2⟩ := hv
    simp only [jitter_bounds] at h1 h2
    simp only [base_paradox_risk]
    split_ifs at h1 h2 ⊢ <;> simp at h1 h2 <;> linarith
  · intro s cmd era j hj hb0 hb1
    exact ⟨(procedural_step_bounds s cmd era j hj hb0 hb1).1,
      procedural_reason_butterfly
        { s with action_history := s.action_history ++ [(cmd, era)] } cmd era j⟩
  · induction steps with
    | nil => exact fun s _ hb0 hb1 => ⟨le_refl _, hb0, hb1⟩
    | cons st rest ih =>
      intro s hjs hb0 hb1
      obtain ⟨cmd, era, j⟩ := st
      have hj : 0 ≤ j := hjs _ (List.mem_cons_self _ _)
      obtain ⟨h1, h2, h3⟩ := procedural_step_bounds s cmd era j hj hb0 hb1
      obtain ⟨h4, h5, h6⟩ := ih (process_command s cmd era .unavailable j).2
        (fun x hx => hjs x (List.mem_cons_of_mem _ hx)) h2 h3
      exact ⟨le_trans h1 h4, h5, h6⟩
  · intro s a b
    rcases hs : (s.anchors.filter fun x => x.era == a).head? with _ | sa <;>
      rcases ht : (s.anchors.filter fun x => x.era == b).head? with _ | ta <;>
      simp only [check_causality, hs, ht]

unseal Rat.mul Rat.inv Rat.add Rat.sub Rat.ofScientific in
/-- Witness for C10 on a one-step save trace from the initial state, with a
valid save-bucket jitter 1/20. -/
theorem butterfly_index_monotone_witness :
    valid_jitter (lowerStr "save the villagers") (1 / 20) ∧
    0.15 ≤ base_paradox_risk (lowerStr "save the villagers") (1 / 20) ∧
    (∀ x ∈ [("save the villagers", "Renaissance", (1 / 20 : ℚ))], 0 ≤ x.2.2) ∧
    initial_state.butterfly_index ≤
      (run_procedural initial_state
        [("save the villagers", "Renaissance", (1 / 20 : ℚ))]).butterfly_index ∧
    (run_procedural initial_state
        [("save the villagers", "Renaissance", (1 / 20 : ℚ))]).butterfly_index ≤ 100 := by
  obtain ⟨-, hmin, -, htr, -, -⟩ :=
    butterfly_index_monotone [("save the villagers", "Renaissance", (1 / 20 : ℚ))]
  have hv : valid_jitter (lowerStr "save the villagers") (1 / 20) := by
    constructor <;> decide
  obtain ⟨ht1, -, ht3⟩ := htr initial_state (by decide) (by decide) (by decide)
  exact ⟨hv, hmin _ _ hv, by decide, ht1, ht3⟩

-- ─────────────────────────────────────────────
-- Claims about the causal-path search and check_causality
-- ─────────────────────────────────────────────

theorem find_aux_target_unreachable (links : List CausalLink) (target : String)
    (queue : List (String × List String)) (visited : List String)
    (Hq : ∀ cp ∈ queue, cp.1 ≠ target)
    (Hl : ∀ l ∈ links, l.target_id ≠ target) :
    find_causal_path_aux links target queue visited = [] := by
  induction queue, visited using find_causal_path_aux.induct links target with
  | case1 => simp [find_causal_path_aux]
  | case2 current path rest visited hcur =>
    exact absurd (by simpa using hcur) (Hq (current, path) (List.mem_cons_self _ _))
  | case3 current path rest visited hcur hvis ih =>
    rw [find_causal_path_aux, if_neg hcur, if_pos hvis]
    exact ih fun cp h => Hq cp (List.mem_cons_of_mem _ h)
  | case4 current path rest visited hcur hvis ih =>
    rw [find_causal_path_aux, if_neg hcur, if_neg hvis]
    refine ih ?_
    intro cp hcp
    rcases List.mem_append.mp hcp with h | h
    · exact Hq cp (List.mem_cons_of_mem _ h)
    · obtain ⟨l, hl, rfl⟩ := List.mem_map.mp h
      exact Hl l (List.mem_filter.mp hl).1

theorem find_causal_path_self (links : List CausalLink) (a : String) :
    find_causal_path links a a = [a] := by
  rw [find_causal_path, find_causal_path_aux, if_pos (beq_self_eq_true a)]

theorem find_causal_path_no_source (links : List CausalLink) (a b : String)
    (hab : a ≠ b) (h : ∀ l ∈ links, l.source_id ≠ a) :
    find_causal_path links a b = [] := by
  have hfilter : (links.filter fun l =>
      l.source_id == a && !((a :: ([] : List String)).contains l.target_id)) = [] := by
    rw [List.filter_eq_nil_iff]
    intro l hl
    simp [h l hl]
  rw [find_causal_path, find_causal_path_aux,
    if_neg (by simpa using hab), if_neg (by simp), hfilter]
  simp [find_causal_path_aux]

/-- Claim C6 (amended): `_find_causal_path` is a BFS over outgoing links only,
total (by the decreasing visited-set measure of its definition) even on cyclic
graphs; `find_path(a,a) = [a]` for every id, including ids unknown to the
timeline; for two distinct ids at least one of which is unknown the result is
empty; on the default seed every returned path is an actual link chain with
the requested endpoints and minimal edge count, and the result is empty
exactly when the target is unreachable; in particular
`find_path("n1","n3") = ["n1","n2","n3"]` (length 3, both endpoints) and
`find_path("n8","n1") = []`.  The original claim's "empty whenever either id
is unknown" fails only in the `a = a` case, see the counterexample. -/
theorem find_path_bfs (x y : String) :
    (∀ (links : List CausalLink) (a : String), find_causal_path links a a = [a]) ∧
    (x ∉ anchor_ids → x ≠ y →
      find_causal_path default_links x y = [] ∧
      find_causal_path default_links y x = []) ∧
    (anchor_ids.all fun a => anchor_ids.all fun b => pair_check a b) = true ∧
    find_causal_path default_links "n1" "n3" = ["n1", "n2", "n3"] ∧
    (find_causal_path default_links "n1" "n3").length = 3 ∧
    (find_causal_path default_links "n1" "n3").head? = some "n1" ∧
    (find_causal_path default_links "n1" "n3").getLast? = some "n3" ∧
    find_causal_path default_links "n8" "n1" = [] := by
  have hends : ∀ l ∈ default_links,
      l.source_id ∈ anchor_ids ∧ l.target_id ∈ anchor_ids := by decide
  have hn13 : find_causal_path default_links "n1" "n3" = ["n1", "n2", "n3"] := by
    simp [find_causal_path, find_causal_path_aux, default_links]
  refine ⟨find_causal_path_self, ?_, ?_, hn13, by rw [hn13]; rfl, by rw [hn13]; rfl,
    by rw [hn13]; rfl, ?_⟩
  · intro hx hxy
    constructor
    · exact find_causal_path_no_source default_links x y hxy
        fun l hl he => hx (he ▸ (hends l hl).1)
    · rw [find_causal_path]
      exact find_aux_target_unreachable default_links x [(y, [y])] []
        (fun cp hcp => by
          rcases List.mem_singleton.mp hcp with rfl
          exact Ne.symm hxy)
        (fun l hl he => hx (he ▸ (hends l hl).2))
  · simp [anchor_ids, default_anchors, pair_check, find_causal_path, find_causal_path_aux,
      default_links, dist_le, reach_within, chain_ok]
  · simp [find_causal_path, find_causal_path_aux, default_links]

/-- Witness for C6 at the unknown id "zz" paired with the known id "n1". -/
theorem find_path_bfs_witness :
    "zz" ∉ anchor_ids ∧ "zz" ≠ "n1" ∧
    find_causal_path default_links "zz" "n1" = [] ∧
    find_causal_path default_links "n1" "zz" = [] := by
  obtain ⟨-, hunk, -, -, -, -, -, -⟩ := find_path_bfs "zz" "n1"
  obtain ⟨h1, h2⟩ := hunk (by decide) (by decide)
  exact ⟨by decide, by decide, h1, h2⟩

/-- Counterexample to C6 as stated: for the unknown id "n0" (not an anchor of
the seeded timeline), `find_path("n0","n0")` returns `["n0"]`, not the empty
sequence the claim requires for unknown ids. -/
theorem find_path_bfs_counterexample :
    find_causal_path default_links "n0" "n0" = ["n0"] ∧
    "n0" ∉ anchor_ids ∧
    find_causal_path default_links "n0" "n0" ≠ [] := by
  have h : find_causal_path default_links "n0" "n0" = ["n0"] :=
    find_causal_path_self default_links "n0"
  exact ⟨h, by decide, by rw [h]; decide⟩

theorem foldl_risk_eq_sum (links : List CausalLink) (path : List String) (init : ℚ) :
    links.foldl (fun acc link =>
        if path.contains link.source_id && link.effect_type == "negative" then
          acc + link.magnitude * 0.3
        else acc) init =
      init + ((links.filter fun l =>
          path.contains l.source_id && l.effect_type == "negative").map
        fun l => l.magnitude * 0.3).sum := by
  induction links generalizing init with
  | nil => simp
  | cons l t ih =>
    cases h : path.contains l.source_id && l.effect_type == "negative" <;>
      simp only [List.foldl_cons, List.filter_cons, h, Bool.false_eq_true,
        eq_self_iff_true, if_true, if_false, List.map_cons, List.sum_cons, ih] <;> ring

/-- Claim C8: `check_causality` returns a structured invalid result (no
exception) when either era resolves to no anchor; otherwise it takes the
first anchor per era, runs `find_path` between them, reports validity iff the
path is non-empty, reports `chain_length` as the path length, and reports a
paradox estimate `min 1 (Σ magnitude*0.3)` over the negative-polarity links
whose source id lies on the path; the engine state is never modified. -/
theorem check_causality_fields (s : EngineState) (se te : String) :
    (((s.anchors.filter fun a => a.era == se).head? = none ∨
      (s.anchors.filter fun a => a.era == te).head? = none) →
      check_causality s se te = (.notFound "Era not found in timeline", s)) ∧
    (∀ sa ta, (s.anchors.filter fun a => a.era == se).head? = some sa →
      (s.anchors.filter fun a => a.era == te).head? = some ta →
      (check_causality s se te).2 = s ∧
      (check_causality s se te).1 = .report
        (decide (0 < (find_causal_path s.causal_links sa.id ta.id).length))
        (find_causal_path s.causal_links sa.id ta.id)
        (min (((s.causal_links.filter fun l =>
            (find_causal_path s.causal_links sa.id ta.id).contains l.source_id &&
              l.effect_type == "negative").map fun l => l.magnitude * 0.3).sum) 1)
        (find_causal_path s.causal_links sa.id ta.id).length
        ("Causal chain from " ++ se ++ " to " ++ te ++ ": " ++
          toString (find_causal_path s.causal_links sa.id ta.id).length ++ " links")) := by
  constructor
  · intro h
    rcases hse : (s.anchors.filter fun a => a.era == se).head? with _ | sa
    · rcases hte : (s.anchors.filter fun a => a.era == te).head? with _ | ta <;>
        simp [check_causality, hse, hte]
    · rcases hte : (s.anchors.filter fun a => a.era == te).head? with _ | ta
      · simp [check_causality, hse, hte]
      · rcases h with h | h
        · rw [hse] at h
          exact absurd h (by simp)
        · rw [hte] at h
          exact absurd h (by simp)
  · intro sa ta hsa hta
    simp only [check_causality, hsa, hta]
    refine ⟨trivial, ?_⟩
    rw [foldl_risk_eq_sum]
    rw [zero_add]

/-- Witness for C8: era pair ("Dark Ages", "Renaissance") resolves to the
anchors n1 and n3 and leaves the state unchanged, and the bogus era
"Atlantis" yields the structured not-found result. -/
theorem check_causality_fields_witness :
    (initial_state.anchors.filter fun a => a.era == "Dark Ages").head? =
      some ⟨"n1", 800, "Dark Ages", "The Awakening",
        "Ancient temporal rift first detected by monks", "stable"⟩ ∧
    (initial_state.anchors.filter fun a => a.era == "Renaissance").head? =
      some ⟨"n3", 1400, "Renaissance", "Leonardo\x27s Workshop",
        "Da Vinci discovers the Chronos blueprints", "shifting"⟩ ∧
    (check_causality initial_state "Dark Ages" "Renaissance").2 = initial_state ∧
    (initial_state.anchors.filter fun a => a.era == "Atlantis").head? = none ∧
    check_causality initial_state "Atlantis" "Renaissance" =
      (.notFound "Era not found in timeline", initial_state) := by
  have hsa : (initial_state.anchors.filter fun a => a.era == "Dark Ages").head? =
      some ⟨"n1", 800, "Dark Ages", "The Awakening",
        "Ancient temporal rift first detected by monks", "stable"⟩ := by decide
  have hta : (initial_state.anchors.filter fun a => a.era == "Renaissance").head? =
      some ⟨"n3", 1400, "Renaissance", "Leonardo\x27s Workshop",
        "Da Vinci discovers the Chronos blueprints", "shifting"⟩ := by decide
  have hne : (initial_state.anchors.filter fun a => a.era == "Atlantis").head? = none := by
    decide
  obtain ⟨-, hfields⟩ := check_causality_fields initial_state "Dark Ages" "Renaissance"
  obtain ⟨h2, -⟩ := hfields _ _ hsa hta
  obtain ⟨hnf2, -⟩ := check_causality_fields initial_state "Atlantis" "Renaissance"
  exact ⟨hsa, hta, h2, hne, hnf2 (.inl hne)⟩

end Chronos
